import Mathlib

/-!
Verification of the SkillBridge gap-scoring and curriculum-assembly pipeline.

The definitions below are a shallow embedding of the Python service layer:
  - src/backend/src/services/gap_analyzer.py   (GapAnalyzer)
  - src/backend/src/services/training_generator.py (TrainingGenerator)
Python strings are Lean Strings (character lists); Python dicts with fixed key
sets are Lean structures (a key that may be absent is an Option field); the
external Semantic Scholar collaborator is a function parameter returning
Except, and an exception escaping it is the error case.  Only the
deterministic (no-LLM) paths are embedded: in every claim under study the
generative collaborator is absent or has failed, which in the source means
the `if self.llm` branches are skipped.
-/

/-! ## Python string primitives -/

/-- Whitespace test for the characters Python str.strip removes
(space, tab, newline, carriage return, vertical tab, form feed). -/
def pySpace (c : Char) : Bool :=
  c.toNat = 32 || c.toNat = 9 || c.toNat = 10 || c.toNat = 13 || c.toNat = 11 || c.toNat = 12

/-- Python str.strip on a character list: drop whitespace from both ends. -/
def stripList (l : List Char) : List Char :=
  ((l.dropWhile pySpace).reverse.dropWhile pySpace).reverse

/-- Python str.strip. -/
def pyStrip (s : String) : String := ⟨stripList s.data⟩

/-- Python str.lower, on the ASCII letters that appear in skill tokens
(Char.toLower maps the basic latin range, which is what the alias table
and the skill vocabulary of this code base use). -/
def pyLower (s : String) : String := ⟨s.data.map Char.toLower⟩

/-- Helper for pyTitle: the boolean records whether the previous character
was alphabetic (Python: cased). -/
def titleAux : Bool → List Char → List Char
  | _, [] => []
  | prevAlpha, c :: cs =>
    (if c.isAlpha then (if prevAlpha then Char.toLower c else Char.toUpper c) else c)
      :: titleAux c.isAlpha cs

/-- Python str.title: first letter of each word upper-cased, the rest lower-cased,
word boundaries at non-alphabetic characters. -/
def pyTitle (s : String) : String := ⟨titleAux false s.data⟩

/-- Helper: does list a occur as a contiguous sublist of l. -/
def substrAux (a : List Char) : List Char → Bool
  | [] => a.isEmpty
  | c :: rest => a.isPrefixOf (c :: rest) || substrAux a rest

/-- Python substring membership, the `a in b` operator on str. -/
def pyIn (a b : String) : Bool := substrAux a.data b.data

/-! ## GapAnalyzer (src/backend/src/services/gap_analyzer.py) -/

/-- GapAnalyzer.normalize_skill (lines 135-154): lower-case, strip, then
resolve the fixed alias table; dict.get(skill, skill) over the five keys is
written as an if-chain. -/
def normalize_skill (s : String) : String :=
  let t := pyLower (pyStrip s)
  if t = "ml" then "machine learning"
  else if t = "dl" then "deep learning"
  else if t = "ai" then "artificial intelligence"
  else if t = "rct" then "randomized controlled trials"
  else if t = "rcts" then "randomized controlled trials"
  else t

/-- Bidirectional substring test between one normalized job skill and one
normalized resume skill (gap_analyzer.py line 177). -/
def skillMatch (job resume : String) : Bool := pyIn job resume || pyIn resume job

/-- Loop of calculate_skill_overlap (lines 173-182): each normalized job skill
is appended to matching when some normalized resume skill matches it
(first match short-circuits), else to missing; both lists keep job order. -/
def overlapAux (resumeN : List String) : List String → List String × List String
  | [] => ([], [])
  | j :: js =>
    if resumeN.any (fun r => skillMatch j r)
    then (j :: (overlapAux resumeN js).1, (overlapAux resumeN js).2)
    else ((overlapAux resumeN js).1, j :: (overlapAux resumeN js).2)

/-- GapAnalyzer.calculate_skill_overlap (lines 156-184). -/
def calculate_skill_overlap (resume_skills job_skills : List String) :
    List String × List String :=
  overlapAux (resume_skills.map normalize_skill) (job_skills.map normalize_skill)

/-- One entry of the gap_details list built in analyze_gaps (lines 282-289);
in the deterministic path every key is present. -/
structure GapDetail where
  skill : String
  importance : String
  priority : Nat
  reason : String
  related_skills : List String
deriving DecidableEq

/-- The dict literal appended for the skill at 0-based index i of the
missing-skills list (analyze_gaps lines 283-289). -/
def gapOf (required : List String) (job_title : String) (i : Nat) (skill : String) : GapDetail :=
  { skill := skill
    importance := if required.contains skill then "important" else "nice-to-have"
    priority := i + 1
    reason := "Required for " ++ job_title ++ " position"
    related_skills := [] }

/-- The enumerate loop of analyze_gaps lines 282-289, index carried explicitly. -/
def mkGapDetails (required : List String) (job_title : String) :
    Nat → List String → List GapDetail
  | _, [] => []
  | i, s :: rest => gapOf required job_title i s :: mkGapDetails required job_title (i + 1) rest

/-- Round the fraction a / b (b positive) to the nearest integer, ties to the
even integer, which is the rounding Python round applies. -/
def roundAux (a b : Int) : Int :=
  let n := Int.fdiv a b
  let r := a - n * b
  if 2 * r < b then n
  else if b < 2 * r then n + 1
  else if n % 2 = 0 then n else n + 1

/-- Python round(q, 2) on an exact rational value. -/
def round2 (q : ℚ) : ℚ := Rat.divInt (roundAux (q.num * 100) q.den) 100

/-- The dictionary returned by analyze_gaps (lines 299-307). -/
structure GapAnalysisResult where
  existing_skills : List String
  missing_skills : List String
  skill_gaps : List GapDetail
  gap_priority : List GapDetail
  confidence_score : ℚ
  analysis_notes : String
deriving DecidableEq

/-- Sort key of gap_details.sort(key priority), line 292.  Python list.sort is
stable; on the deterministic path the priorities are strictly increasing, so any
stable sort agrees with insertion sort by this relation. -/
def priorityLe (a b : GapDetail) : Prop := a.priority ≤ b.priority

instance : DecidableRel priorityLe := fun a b => Nat.decLe a.priority b.priority

/-- GapAnalyzer.analyze_gaps (lines 186-307) on the deterministic path
(self.llm is None, so the LLM branches at lines 219-278 are skipped and
gap_details is built by the fallback loop).  The job-skill extraction result
is passed in as the required and preferred lists. -/
def analyze_gaps (resume_skills required preferred : List String) (job_title : String) :
    GapAnalysisResult :=
  let all_job_skills := required ++ preferred
  let mm := calculate_skill_overlap resume_skills all_job_skills
  let gap_details := mkGapDetails required job_title 0 (mm.2.take 10)
  let sorted := gap_details.insertionSort priorityLe
  let total := all_job_skills.length
  { existing_skills := mm.1
    missing_skills := mm.2
    skill_gaps := sorted
    gap_priority := sorted.take 5
    confidence_score :=
      if 0 < total then round2 (Rat.divInt (100 * mm.1.length) total) else round2 0
    analysis_notes :=
      "Found " ++ toString mm.1.length ++ " matching skills out of " ++ toString total
        ++ " required. Identified " ++ toString mm.2.length ++ " skill gaps to address." }

/-! ## TrainingGenerator (src/backend/src/services/training_generator.py) -/

/-- One entry of a module content list; the Python dict key "section" is a
Lean keyword and is rendered sectionName. -/
structure ContentSection where
  sectionName : String
  content : String
deriving DecidableEq

/-- One entry of a practical_exercises list. -/
structure Exercise where
  title : String
  description : String
deriving DecidableEq

/-- One training module dict.  Single-phase modules carry no "phase" key
(phase = none); two-phase modules carry "foundation" or "project". -/
structure TrainingModule where
  title : String
  description : String
  phase : Option String
  learning_objectives : List String
  content : List ContentSection
  practical_exercises : List Exercise
  estimated_duration : String
  difficulty : String
deriving DecidableEq

/-- A resources entry: either one of the fixed template dicts (type, title,
url) or a research-paper dict appended by the enrichment step. -/
inductive Resource where
  | plain (type title url : String)
  | research (title authors : String) (year : Option Int) (citations : Nat)
      (url : String) (pdf_url : Option String) (abstract : Option String)
      (skill : String) (venue : String)
deriving DecidableEq

/-- A case_studies entry: a template dict or a research dict appended by the
enrichment step. -/
inductive CaseStudy where
  | plain (title description : String) (learning_outcomes : List String)
  | research (title description authors : String) (year : Option Int)
      (url : String) (pdf_url : Option String) (type : String)
      (learning_outcomes : List String)
deriving DecidableEq

/-- One milestones entry of the two-phase template. -/
structure Milestone where
  week : Nat
  milestone : String
  deliverable : String
deriving DecidableEq

/-- One phases entry of the two-phase template. -/
structure TrainingPhase where
  phase_number : Nat
  phase_name : String
  description : String
  modules : List TrainingModule
  estimated_duration : String
deriving DecidableEq

/-- The training-data dict returned by the generator.  Keys that only some
code paths write are Option fields (absent = none). -/
structure TrainingData where
  title : String
  description : String
  team_role : Option String
  project_name : Option String
  organization : Option String
  phases : Option (List TrainingPhase)
  learning_objectives : List String
  modules : List TrainingModule
  case_studies : List CaseStudy
  resources : List Resource
  estimated_duration : String
  milestones : Option (List Milestone)
  research_papers_count : Option Nat
deriving DecidableEq

/-- The module dict built for the gap at 0-based index i of the loop in
TrainingGenerator._generate_template_based (lines 204-243). -/
def template_module (i : Nat) (gap : GapDetail) (job_title domain : String) : TrainingModule :=
  let skill := gap.skill
  { title := "Module " ++ toString (i + 1) ++ ": " ++ pyTitle skill
    description := "Learn " ++ skill ++ " for " ++ job_title ++ " in " ++ domain
    phase := none
    learning_objectives :=
      [ "Understand the fundamentals of " ++ skill
      , "Apply " ++ skill ++ " in " ++ domain ++ " contexts"
      , "Practice " ++ skill ++ " through hands-on exercises" ]
    content :=
      [ ⟨"Introduction",
          "Introduction to " ++ skill ++ " and its relevance to " ++ job_title ++ " in " ++ domain⟩
      , ⟨"Core Concepts", "Deep dive into " ++ skill ++ " concepts and methodologies"⟩
      , ⟨"Practical Application", "Applying " ++ skill ++ " to real-world " ++ domain ++ " scenarios"⟩ ]
    practical_exercises :=
      [ ⟨"Exercise 1: " ++ skill ++ " Basics",
          "Hands-on exercise to practice " ++ skill ++ " fundamentals"⟩
      , ⟨"Exercise 2: " ++ skill ++ " in " ++ domain,
          "Apply " ++ skill ++ " to a " ++ domain ++ "-specific problem"⟩ ]
    estimated_duration := "1-2 weeks"
    difficulty := if gap.importance = "critical" then "intermediate" else "beginner" }

/-- The enumerate loop of _generate_template_based, index carried explicitly. -/
def mkModules (job_title domain : String) : Nat → List GapDetail → List TrainingModule
  | _, [] => []
  | i, g :: gs => template_module i g job_title domain :: mkModules job_title domain (i + 1) gs

/-- TrainingGenerator._generate_template_based (lines 195-274). -/
def generate_template_based (priority_gaps : List GapDetail) (job_title domain : String) :
    TrainingData :=
  let modules := mkModules job_title domain 0 (priority_gaps.take 5)
  { title := "Training Program for " ++ job_title ++ " in " ++ domain
    description := "Comprehensive training program to bridge skill gaps for " ++ job_title
    team_role := none
    project_name := none
    organization := none
    phases := none
    learning_objectives :=
      [ "Bridge identified skill gaps"
      , "Gain proficiency in " ++ domain ++ " domain knowledge"
      , "Apply learned skills through practical exercises" ]
    modules := modules
    case_studies :=
      [ .plain (pyTitle domain ++ " Case Study 1")
          ("Real-world case study applying learned skills in " ++ domain)
          ["Practical application", "Problem-solving", "Domain expertise"] ]
    resources :=
      [ .plain "tutorial" "Online Tutorials" "Search for relevant tutorials on the identified skills"
      , .plain "paper" "Research Papers" "Review recent papers in the field" ]
    estimated_duration := toString (modules.length * 2) ++ " weeks"
    milestones := none
    research_papers_count := none }

/-- TrainingGenerator._generate_default_module (lines 276-299). -/
def generate_default_module (job_title domain : String) : TrainingData :=
  { title := "Orientation Program for " ++ job_title
    description := "Introduction to " ++ job_title ++ " role in " ++ domain
    team_role := none
    project_name := none
    organization := none
    phases := none
    learning_objectives :=
      ["Understand role expectations", "Familiarize with domain-specific practices"]
    modules :=
      [ { title := "Role Introduction"
          description := "Introduction to " ++ job_title ++ " responsibilities"
          phase := none
          learning_objectives := ["Understand role", "Learn expectations"]
          content := [⟨"Overview", "Role overview"⟩]
          practical_exercises := []
          estimated_duration := "1 week"
          difficulty := "beginner" } ]
    case_studies := []
    resources := []
    estimated_duration := "1 week"
    milestones := none
    research_papers_count := none }

/-- TrainingGenerator.generate_training_modules (lines 55-92) on the
deterministic path (self.llm is None): the default module when skill_gaps is
empty, else the template fallback on gap_priority. -/
def generate_training_modules (skill_gaps priority_gaps : List GapDetail)
    (job_title domain : String) : TrainingData :=
  if skill_gaps.isEmpty then generate_default_module job_title domain
  else generate_template_based priority_gaps job_title domain

/-- The project_info dict of generate_project_training; every key is read with
.get and a default, so each is an Option field. -/
structure ProjectInfo where
  name : Option String
  description : Option String
  tech_stack : Option (List String)
  team_role : Option String
  organization : Option String
  goals : Option (List String)
  timeline : Option String
deriving DecidableEq

/-- The foundation-phase module dict built for the gap at 0-based index i
(_generate_project_training_template, lines 443-462). -/
def foundation_module (i : Nat) (gap : GapDetail) : TrainingModule :=
  let skill := gap.skill
  { title := "Foundation " ++ toString (i + 1) ++ ": " ++ pyTitle skill
    description := "Build foundational knowledge in " ++ skill
    phase := some "foundation"
    learning_objectives :=
      [ "Understand core concepts of " ++ skill
      , "Apply " ++ skill ++ " in practical scenarios" ]
    content :=
      [ ⟨"Core Concepts", "Fundamental concepts of " ++ skill⟩
      , ⟨"Best Practices", "Industry best practices for " ++ skill⟩ ]
    practical_exercises := [⟨skill ++ " Fundamentals", "Hands-on practice with " ++ skill⟩]
    estimated_duration := "1 week"
    difficulty := "intermediate" }

/-- The enumerate loop over priority_gaps[:3], index carried explicitly. -/
def mkFoundationModules : Nat → List GapDetail → List TrainingModule
  | _, [] => []
  | i, g :: gs => foundation_module i g :: mkFoundationModules (i + 1) gs

/-- The tech-stack module dict (lines 468-486). -/
def tech_module (tech project_name : String) : TrainingModule :=
  { title := "Project Tech: " ++ tech
    description := "Learn " ++ tech ++ " as used in " ++ project_name
    phase := some "project"
    learning_objectives :=
      [ "Understand " ++ tech ++ " in the context of " ++ project_name
      , "Apply " ++ tech ++ " to project requirements" ]
    content :=
      [ ⟨"Overview", "How " ++ tech ++ " is used in " ++ project_name⟩
      , ⟨"Project Setup", "Setting up " ++ tech ++ " for the project"⟩ ]
    practical_exercises :=
      [⟨tech ++ " Project Task", "Complete a task using " ++ tech ++ " for " ++ project_name⟩]
    estimated_duration := "3-5 days"
    difficulty := "intermediate" }

/-- The trailing project-context module dict (lines 489-509). -/
def context_module (project_name : String) : TrainingModule :=
  { title := "Project Context: " ++ project_name
    description := "Understanding " ++ project_name ++ " goals, architecture, and workflow"
    phase := some "project"
    learning_objectives :=
      [ "Understand project goals and objectives"
      , "Learn project architecture and codebase"
      , "Understand team workflow and processes" ]
    content :=
      [ ⟨"Project Overview", "Goals and scope of " ++ project_name⟩
      , ⟨"Architecture", "Technical architecture and design decisions"⟩
      , ⟨"Team Workflow", "Development workflow, code review, deployment"⟩ ]
    practical_exercises :=
      [ ⟨"Codebase Exploration", "Navigate and understand the project codebase"⟩
      , ⟨"First Contribution", "Make your first contribution to the project"⟩ ]
    estimated_duration := "1 week"
    difficulty := "intermediate" }

/-- TrainingGenerator._generate_project_training_template (lines 429-559). -/
def generate_project_training_template (priority_gaps : List GapDetail)
    (project_info : ProjectInfo) (existing_skills : List String) : TrainingData :=
  let project_name := project_info.name.getD "Project"
  let tech_stack := project_info.tech_stack.getD []
  let team_role := project_info.team_role.getD "Developer"
  let organization := project_info.organization.getD "Organization"
  let foundation_modules := mkFoundationModules 0 (priority_gaps.take 3)
  let project_modules :=
    (tech_stack.take 3).map (fun t => tech_module t project_name) ++ [context_module project_name]
  let all_modules := foundation_modules ++ project_modules
  { title := team_role ++ " Training for " ++ project_name
    description := "Comprehensive training program for " ++ team_role ++ " joining "
      ++ project_name ++ " at " ++ organization
    team_role := some team_role
    project_name := some project_name
    organization := some organization
    phases := some
      [ ⟨1, "Foundation Training", "Build foundational skills based on identified gaps",
          foundation_modules, toString foundation_modules.length ++ " weeks"⟩
      , ⟨2, "Project-Specific Training", "Learn project-specific skills for " ++ project_name,
          project_modules, toString project_modules.length ++ " weeks"⟩ ]
    learning_objectives :=
      [ "Bridge identified skill gaps"
      , "Gain proficiency in " ++ project_name ++ " tech stack"
      , "Understand project context and contribute effectively"
      , "Integrate into " ++ organization ++ " team workflow" ]
    modules := all_modules
    case_studies :=
      [ .plain (project_name ++ " Feature Implementation")
          ("Walk through implementing a feature in " ++ project_name)
          ["Understand development workflow", "Apply learned skills"] ]
    resources :=
      [ .plain "documentation" "Project Documentation" "Internal docs"
      , .plain "tutorial" "Tech Stack Tutorials" "Relevant tutorials" ]
    estimated_duration := toString (all_modules.length + 1) ++ " weeks"
    milestones := some
      [ ⟨1, "Foundation Complete", "Pass foundation assessments"⟩
      , ⟨foundation_modules.length + 1, "Project Onboarded", "First PR merged"⟩
      , ⟨all_modules.length, "Fully Productive", "Independent task completion"⟩ ]
    research_papers_count := none }

/-- A paper dict as produced by SemanticScholarService._format_papers
(semantic_scholar.py lines 195-226), the shape enrich_with_research_papers
consumes. -/
structure Paper where
  id : Option String
  title : String
  abstract : Option String
  authors : String
  year : Option Int
  citations : Nat
  venue : String
  url : String
  pdf_url : Option String
deriving DecidableEq

/-- The research-paper resource dict appended per (skill, paper)
(training_generator.py lines 598-609). -/
def research_resource (skill : String) (p : Paper) : Resource :=
  .research p.title p.authors p.year p.citations p.url p.pdf_url p.abstract skill p.venue

/-- The research case-study dict appended per case-study paper (lines 614-627).
The Python conditional expression tests the truthiness of the abstract value:
an absent or empty abstract selects the fixed fallback text. -/
def research_case_study (p : Paper) : CaseStudy :=
  .research p.title
    (match p.abstract with
      | some a => if a.isEmpty then "Research case study" else ⟨a.data.take 300⟩ ++ "..."
      | none => "Research case study")
    p.authors p.year p.url p.pdf_url "research"
    [ "Understand real-world application"
    , "Learn from published research"
    , "Apply academic insights to practice" ]

/-- TrainingGenerator.enrich_with_research_papers (lines 561-641).  The two
awaited collaborator calls are passed in as functions returning Except; an
exception raised by a call is its error case and is caught by the except
handler, which returns the input unchanged.  Both calls precede every
mutation of training_data, so a collaborator failure leaves the input intact;
on success the buffered resource and case-study lists are appended and the
research_papers_count key is written. -/
def enrich_with_research_papers (training_data : TrainingData) (skill_gaps : List String)
    (domain : String)
    (get_papers_for_skills : List String → String → Nat → Except Unit (List (String × List Paper)))
    (get_case_studies : String → String → Nat → Except Unit (List Paper)) : TrainingData :=
  match get_papers_for_skills (skill_gaps.take 5) domain 3 with
  | .error _ => training_data
  | .ok papers_by_skill =>
    match get_case_studies (skill_gaps.headD domain) domain 3 with
    | .error _ => training_data
    | .ok case_study_papers =>
      let research_resources :=
        (papers_by_skill.map (fun sp => sp.2.map (research_resource sp.1))).flatten
      { training_data with
        resources := training_data.resources ++ research_resources
        case_studies := training_data.case_studies ++ case_study_papers.map research_case_study
        research_papers_count := some research_resources.length }

/-! ## Helper lemmas on characters and strings -/

theorem char_toNat_ofNat_valid (n : Nat) (h : n.isValidChar) : (Char.ofNat n).toNat = n := by
  simp [Char.ofNat, dif_pos h, Char.ofNatAux, Char.toNat, UInt32.toNat, BitVec.toNat_ofNatLt]

theorem toLower_idem (c : Char) : Char.toLower (Char.toLower c) = Char.toLower c := by
  unfold Char.toLower
  by_cases h : c.toNat ≥ 65 ∧ c.toNat ≤ 90
  · rw [if_pos h]
    have hv : (c.toNat + 32).isValidChar := Or.inl (by omega)
    rw [char_toNat_ofNat_valid _ hv, if_neg (by omega)]
  · rw [if_neg h, if_neg h]

theorem pySpace_toLower (c : Char) : pySpace (Char.toLower c) = pySpace c := by
  unfold Char.toLower
  by_cases h : c.toNat ≥ 65 ∧ c.toNat ≤ 90
  · rw [if_pos h]
    have hv : (c.toNat + 32).isValidChar := Or.inl (by omega)
    have hub : pySpace (Char.ofNat (c.toNat + 32)) = false := by
      simp only [pySpace, char_toNat_ofNat_valid _ hv, Bool.or_eq_false_iff,
        decide_eq_false_iff_not]
      omega
    have hcb : pySpace c = false := by
      simp only [pySpace, Bool.or_eq_false_iff, decide_eq_false_iff_not]
      omega
    rw [hub, hcb]
  · rw [if_neg h]

theorem dropWhile_dropWhile (p : Char → Bool) (l : List Char) :
    List.dropWhile p (List.dropWhile p l) = List.dropWhile p l := by
  induction l with
  | nil => rfl
  | cons c cs ih =>
    by_cases h : p c
    · rw [List.dropWhile_cons, if_pos h, ih]
    · rw [List.dropWhile_cons, if_neg h, List.dropWhile_cons, if_neg h]

theorem dropWhile_map_toLower (l : List Char) :
    List.dropWhile pySpace (l.map Char.toLower)
      = (List.dropWhile pySpace l).map Char.toLower := by
  induction l with
  | nil => rfl
  | cons c cs ih =>
    by_cases h : pySpace c
    · rw [List.map_cons, List.dropWhile_cons, List.dropWhile_cons,
        if_pos ((pySpace_toLower c).trans h), if_pos h, ih]
    · rw [List.map_cons, List.dropWhile_cons, List.dropWhile_cons]
      rw [if_neg (fun hc => h (((pySpace_toLower c).symm.trans hc))),
        if_neg h, List.map_cons]

theorem stripList_map_toLower (l : List Char) :
    stripList (l.map Char.toLower) = (stripList l).map Char.toLower := by
  unfold stripList
  rw [dropWhile_map_toLower, ← List.map_reverse, dropWhile_map_toLower, List.map_reverse]

theorem dropWhile_eq_self_of_prefix (p : Char → Bool) (a b : List Char)
    (ha : List.dropWhile p a = a) (hpre : b <+: a) : List.dropWhile p b = b := by
  cases b with
  | nil => rfl
  | cons c b' =>
    obtain ⟨t, ht⟩ := hpre
    by_cases hp : p c
    · exfalso
      have h1 : List.dropWhile p a = List.dropWhile p (b' ++ t) := by
        rw [← ht, List.cons_append, List.dropWhile_cons, if_pos hp]
      have h2 : (List.dropWhile p (b' ++ t)).length ≤ (b' ++ t).length :=
        (List.dropWhile_suffix p).length_le
      have h3 : a.length = (b' ++ t).length + 1 := by
        rw [← ht, List.cons_append, List.length_cons]
      have h4 : (List.dropWhile p a).length = a.length := by rw [ha]
      rw [h1] at h4
      omega
    · rw [List.dropWhile_cons, if_neg hp]

theorem stripList_stripList (l : List Char) : stripList (stripList l) = stripList l := by
  have ha : List.dropWhile pySpace (List.dropWhile pySpace l) = List.dropWhile pySpace l :=
    dropWhile_dropWhile pySpace l
  have hr : List.dropWhile pySpace
      ((List.dropWhile pySpace l).reverse.dropWhile pySpace)
      = (List.dropWhile pySpace l).reverse.dropWhile pySpace :=
    dropWhile_dropWhile pySpace _
  have hpre : stripList l <+: List.dropWhile pySpace l := by
    have hsuf : (List.dropWhile pySpace l).reverse.dropWhile pySpace
        <:+ (List.dropWhile pySpace l).reverse := List.dropWhile_suffix pySpace
    have := List.reverse_prefix.mpr hsuf
    rwa [List.reverse_reverse] at this
  have step1 : List.dropWhile pySpace (stripList l) = stripList l :=
    dropWhile_eq_self_of_prefix pySpace _ _ ha hpre
  have e1 : stripList (stripList l)
      = (((stripList l).dropWhile pySpace).reverse.dropWhile pySpace).reverse := rfl
  rw [e1, step1]
  have e2 : (stripList l).reverse = (List.dropWhile pySpace l).reverse.dropWhile pySpace := by
    show (((List.dropWhile pySpace l).reverse.dropWhile pySpace).reverse).reverse
        = (List.dropWhile pySpace l).reverse.dropWhile pySpace
    rw [List.reverse_reverse]
  rw [e2, hr]
  rfl

theorem lowerStrip_idem (s : String) :
    pyLower (pyStrip (pyLower (pyStrip s))) = pyLower (pyStrip s) := by
  show (⟨(stripList ((stripList s.data).map Char.toLower)).map Char.toLower⟩ : String)
      = ⟨(stripList s.data).map Char.toLower⟩
  rw [stripList_map_toLower, stripList_stripList, List.map_map]
  have : (Char.toLower ∘ Char.toLower) = Char.toLower := funext toLower_idem
  rw [this]

/-! ## Helper lemmas on the overlap computation -/

theorem overlapAux_length (rn : List String) (js : List String) :
    (overlapAux rn js).1.length + (overlapAux rn js).2.length = js.length := by
  induction js with
  | nil => rfl
  | cons j js ih =>
    cases h : rn.any (fun r => skillMatch j r) with
    | true =>
      simp only [overlapAux, h, if_true, List.length_cons]
      omega
    | false =>
      simp only [overlapAux, h, Bool.false_eq_true, if_false, List.length_cons]
      omega

theorem overlapAux_matching_subset (rn : List String) (js : List String) :
    ∀ x ∈ (overlapAux rn js).1, x ∈ js := by
  induction js with
  | nil =>
    intro x hx
    simp [overlapAux] at hx
  | cons j js ih =>
    intro x hx
    cases h : rn.any (fun r => skillMatch j r) with
    | true =>
      simp only [overlapAux, h, if_true] at hx
      rcases List.mem_cons.mp hx with h1 | h1
      · exact h1 ▸ List.mem_cons_self j js
      · exact List.mem_cons_of_mem j (ih x h1)
    | false =>
      simp only [overlapAux, h, Bool.false_eq_true, if_false] at hx
      exact List.mem_cons_of_mem j (ih x hx)

theorem overlapAux_missing_subset (rn : List String) (js : List String) :
    ∀ x ∈ (overlapAux rn js).2, x ∈ js := by
  induction js with
  | nil =>
    intro x hx
    simp [overlapAux] at hx
  | cons j js ih =>
    intro x hx
    cases h : rn.any (fun r => skillMatch j r) with
    | true =>
      simp only [overlapAux, h, if_true] at hx
      exact List.mem_cons_of_mem j (ih x hx)
    | false =>
      simp only [overlapAux, h, Bool.false_eq_true, if_false] at hx
      rcases List.mem_cons.mp hx with h1 | h1
      · exact h1 ▸ List.mem_cons_self j js
      · exact List.mem_cons_of_mem j (ih x h1)

theorem overlapAux_missing_filter (rn : List String) (js : List String) :
    (overlapAux rn js).2 = js.filter (fun j => !rn.any (fun r => skillMatch j r)) := by
  induction js with
  | nil => rfl
  | cons j js ih =>
    cases h : rn.any (fun r => skillMatch j r) with
    | true => simp [overlapAux, h, ih, List.filter_cons]
    | false => simp [overlapAux, h, ih, List.filter_cons]

/-! ## Claim theorems: skill normalization and overlap -/

/-- Claim C9: skill normalization is idempotent: for every string x,
normalize_skill (normalize_skill x) = normalize_skill x, where normalization
lower-cases, strips whitespace, and resolves the fixed alias table. -/
theorem c9_normalize_idempotent (s : String) :
    normalize_skill (normalize_skill s) = normalize_skill s := by
  have hkey : ∀ u : String, pyLower (pyStrip u) = u → u ≠ "ml" → u ≠ "dl" → u ≠ "ai" →
      u ≠ "rct" → u ≠ "rcts" → normalize_skill u = u := by
    intro u hu h1 h2 h3 h4 h5
    simp only [normalize_skill]
    rw [hu, if_neg h1, if_neg h2, if_neg h3, if_neg h4, if_neg h5]
  by_cases h1 : pyLower (pyStrip s) = "ml"
  · have hs : normalize_skill s = "machine learning" := by
      simp only [normalize_skill]
      rw [h1]
      decide
    rw [hs]
    decide
  · by_cases h2 : pyLower (pyStrip s) = "dl"
    · have hs : normalize_skill s = "deep learning" := by
        simp only [normalize_skill]
        rw [h2]
        decide
      rw [hs]
      decide
    · by_cases h3 : pyLower (pyStrip s) = "ai"
      · have hs : normalize_skill s = "artificial intelligence" := by
          simp only [normalize_skill]
          rw [h3]
          decide
        rw [hs]
        decide
      · by_cases h4 : pyLower (pyStrip s) = "rct"
        · have hs : normalize_skill s = "randomized controlled trials" := by
            simp only [normalize_skill]
            rw [h4]
            decide
          rw [hs]
          decide
        · by_cases h5 : pyLower (pyStrip s) = "rcts"
          · have hs : normalize_skill s = "randomized controlled trials" := by
              simp only [normalize_skill]
              rw [h5]
              decide
            rw [hs]
            decide
          · have hs : normalize_skill s = pyLower (pyStrip s) := by
              simp only [normalize_skill]
              rw [if_neg h1, if_neg h2, if_neg h3, if_neg h4, if_neg h5]
            rw [hs]
            exact hkey _ (lowerStrip_idem s) h1 h2 h3 h4 h5

/-- Claim C10: calculate_skill_overlap classifies each raw target entry exactly
once, duplicates included: the matching and missing lengths sum to the length
of the target list, every reported skill is a normalized form of some target
entry, and missing lists the unmatched normalized targets in target order. -/
theorem c10_overlap_partition (resume_skills job_skills : List String) :
    (calculate_skill_overlap resume_skills job_skills).1.length
        + (calculate_skill_overlap resume_skills job_skills).2.length = job_skills.length
    ∧ (∀ x ∈ (calculate_skill_overlap resume_skills job_skills).1,
        x ∈ job_skills.map normalize_skill)
    ∧ (∀ x ∈ (calculate_skill_overlap resume_skills job_skills).2,
        x ∈ job_skills.map normalize_skill)
    ∧ (calculate_skill_overlap resume_skills job_skills).2
        = (job_skills.map normalize_skill).filter
            (fun j => !(resume_skills.map normalize_skill).any (fun r => skillMatch j r)) := by
  unfold calculate_skill_overlap
  refine ⟨?_, ?_, ?_, ?_⟩
  · rw [overlapAux_length, List.length_map]
  · exact overlapAux_matching_subset _ _
  · exact overlapAux_missing_subset _ _
  · exact overlapAux_missing_filter _ _

/-- Claim C1, counterexample: with candidate skills [] and target skills
["python", "python"], the matched and missing counts sum to 2 while there is
only 1 distinct normalized target skill, so the claimed identity fails when
target entries normalize to the same token. -/
theorem c1_counterexample :
    ¬ ((calculate_skill_overlap [] ["python", "python"]).1.length
        + (calculate_skill_overlap [] ["python", "python"]).2.length
        = ((["python", "python"].map normalize_skill).dedup).length) := by
  decide

/-- Claim C1, amended: each raw target entry is classified exactly once, so
matched plus missing counts equal the raw target-list length; when the
normalized target list has no duplicates this equals the number of distinct
normalized target skills, as the claim states. -/
theorem c1_overlap_distinct (resume_skills job_skills : List String)
    (h : (job_skills.map normalize_skill).Nodup) :
    (calculate_skill_overlap resume_skills job_skills).1.length
        + (calculate_skill_overlap resume_skills job_skills).2.length
        = ((job_skills.map normalize_skill).dedup).length := by
  rw [List.dedup_eq_self.mpr h, List.length_map]
  unfold calculate_skill_overlap
  rw [overlapAux_length, List.length_map]

/-- Claim C1, witness: concrete duplicate-free target list where the amended
identity holds with value 3. -/
theorem c1_witness :
    (["python", "machine learning", "sql"].map normalize_skill).Nodup
    ∧ (calculate_skill_overlap ["python", "data science"]
          ["python", "machine learning", "sql"]).1.length
        + (calculate_skill_overlap ["python", "data science"]
          ["python", "machine learning", "sql"]).2.length
        = ((["python", "machine learning", "sql"].map normalize_skill).dedup).length :=
  ⟨by decide, c1_overlap_distinct ["python", "data science"]
    ["python", "machine learning", "sql"] (by decide)⟩

/-! ## Helper lemmas on the deterministic prioritizer -/

theorem mkGapDetails_eq_enumFrom (required : List String) (job_title : String)
    (i : Nat) (l : List String) :
    mkGapDetails required job_title i l
      = (List.enumFrom i l).map (fun p => gapOf required job_title p.1 p.2) := by
  induction l generalizing i with
  | nil => rfl
  | cons s rest ih =>
    simp only [mkGapDetails, List.enumFrom_cons, List.map_cons]
    rw [ih]

theorem mkGapDetails_priority_le (required : List String) (job_title : String)
    (l : List String) : ∀ (i : Nat), ∀ g ∈ mkGapDetails required job_title i l,
      i + 1 ≤ g.priority := by
  induction l with
  | nil =>
    intro i g hg
    simp [mkGapDetails] at hg
  | cons s rest ih =>
    intro i g hg
    simp only [mkGapDetails] at hg
    rcases List.mem_cons.mp hg with h1 | h1
    · rw [h1]
      exact Nat.le_refl _
    · have := ih (i + 1) g h1
      omega

theorem mkGapDetails_sorted (required : List String) (job_title : String)
    (l : List String) : ∀ i : Nat,
      List.Sorted priorityLe (mkGapDetails required job_title i l) := by
  induction l with
  | nil => intro i; exact List.sorted_nil
  | cons s rest ih =>
    intro i
    simp only [mkGapDetails]
    rw [List.sorted_cons]
    constructor
    · intro b hb
      have hence := mkGapDetails_priority_le required job_title rest (i + 1) b hb
      show (gapOf required job_title i s).priority ≤ b.priority
      show i + 1 ≤ b.priority
      omega
    · exact ih (i + 1)

/-- Claim C2: on the deterministic path the prioritizer caps gap_details at
10 entries, marks a skill important exactly when it is contained in the
required list, assigns priority as the 1-based position in the missing-skills
sequence, uses the fixed templated reason with job_title, leaves
related_skills empty, and makes gap_priority the first-5 prefix of the
gap-details list. -/
theorem c2_deterministic_prioritizer (resume_skills required preferred : List String)
    (job_title : String) :
    (analyze_gaps resume_skills required preferred job_title).skill_gaps
      = (((calculate_skill_overlap resume_skills (required ++ preferred)).2.take 10).enum).map
          (fun p =>
            { skill := p.2
              importance := if required.contains p.2 then "important" else "nice-to-have"
              priority := p.1 + 1
              reason := "Required for " ++ job_title ++ " position"
              related_skills := [] })
    ∧ (analyze_gaps resume_skills required preferred job_title).gap_priority
      = (analyze_gaps resume_skills required preferred job_title).skill_gaps.take 5 := by
  constructor
  · have hsg : (analyze_gaps resume_skills required preferred job_title).skill_gaps
        = (mkGapDetails required job_title 0
            ((calculate_skill_overlap resume_skills (required ++ preferred)).2.take 10)).insertionSort
            priorityLe := rfl
    rw [hsg, List.Sorted.insertionSort_eq (mkGapDetails_sorted required job_title _ 0),
      mkGapDetails_eq_enumFrom]
    rfl
  · rfl

/-- Claim C4: the deterministic confidence score is 100 times the matched
count over the raw target-skill count, rounded to 2 decimal places; it is 0
for an empty target list; and on the documented scenario the matched, missing
and score values are ["python"], ["machine learning", "sql"] and 33.33
(the rational 3333/100). -/
theorem c4_confidence_score :
    (∀ (resume_skills required preferred : List String) (job_title : String),
      0 < (required ++ preferred).length →
      (analyze_gaps resume_skills required preferred job_title).confidence_score
        = round2 (100
            * ((analyze_gaps resume_skills required preferred job_title).existing_skills.length : ℚ)
            / ((required ++ preferred).length : ℚ)))
    ∧ (∀ (resume_skills required preferred : List String) (job_title : String),
      (required ++ preferred).length = 0 →
      (analyze_gaps resume_skills required preferred job_title).confidence_score = 0)
    ∧ ((analyze_gaps ["python", "data science"] ["python", "machine learning", "sql"] []
          "ML Intern").existing_skills = ["python"]
      ∧ (analyze_gaps ["python", "data science"] ["python", "machine learning", "sql"] []
          "ML Intern").missing_skills = ["machine learning", "sql"]
      ∧ (analyze_gaps ["python", "data science"] ["python", "machine learning", "sql"] []
          "ML Intern").confidence_score = Rat.divInt 3333 100) := by
  refine ⟨?_, ?_, by decide, by decide, by decide⟩
  · intro resume_skills required preferred job_title h
    have hcs : (analyze_gaps resume_skills required preferred job_title).confidence_score
        = if 0 < (required ++ preferred).length
          then round2 (Rat.divInt
            (100 * (calculate_skill_overlap resume_skills (required ++ preferred)).1.length)
            (required ++ preferred).length)
          else round2 0 := rfl
    rw [hcs, if_pos h]
    have harg : (Rat.divInt
          ((100 : Int) * ((calculate_skill_overlap resume_skills (required ++ preferred)).1.length : Int))
          (((required ++ preferred).length : Int)))
        = 100 * ((calculate_skill_overlap resume_skills (required ++ preferred)).1.length : ℚ)
            / (((required ++ preferred).length : Nat) : ℚ) := by
      rw [Rat.divInt_eq_div]
      push_cast
      ring
    have hex : (analyze_gaps resume_skills required preferred job_title).existing_skills
        = (calculate_skill_overlap resume_skills (required ++ preferred)).1 := rfl
    rw [hex, harg]
  · intro resume_skills required preferred job_title h
    have hcs : (analyze_gaps resume_skills required preferred job_title).confidence_score
        = if 0 < (required ++ preferred).length
          then round2 (Rat.divInt
            (100 * (calculate_skill_overlap resume_skills (required ++ preferred)).1.length)
            (required ++ preferred).length)
          else round2 0 := rfl
    rw [hcs, if_neg (by omega)]
    decide

/-- Claim C4, witness: the non-empty-target branch applied at the scenario
input, and the empty-target branch applied at all-empty input. -/
theorem c4_witness :
    0 < ((["python", "machine learning", "sql"] ++ [] : List String)).length
    ∧ (analyze_gaps ["python", "data science"] ["python", "machine learning", "sql"] []
          "ML Intern").confidence_score
        = round2 (100
            * ((analyze_gaps ["python", "data science"] ["python", "machine learning", "sql"] []
                "ML Intern").existing_skills.length : ℚ)
            / (((["python", "machine learning", "sql"] ++ [] : List String)).length : ℚ))
    ∧ (analyze_gaps [] [] [] "X").confidence_score = 0 :=
  ⟨by decide,
    c4_confidence_score.1 ["python", "data science"] ["python", "machine learning", "sql"]
      [] "ML Intern" (by decide),
    c4_confidence_score.2.1 [] [] [] "X" rfl⟩

/-! ## Helper lemmas on the curriculum assembler -/

theorem mkModules_eq_enumFrom (job_title domain : String) (i : Nat) (l : List GapDetail) :
    mkModules job_title domain i l
      = (List.enumFrom i l).map (fun p => template_module p.1 p.2 job_title domain) := by
  induction l generalizing i with
  | nil => rfl
  | cons g gs ih =>
    simp only [mkModules, List.enumFrom_cons, List.map_cons]
    rw [ih]

theorem mkFoundationModules_eq_enumFrom (i : Nat) (l : List GapDetail) :
    mkFoundationModules i l
      = (List.enumFrom i l).map (fun p => foundation_module p.1 p.2) := by
  induction l generalizing i with
  | nil => rfl
  | cons g gs ih =>
    simp only [mkFoundationModules, List.enumFrom_cons, List.map_cons]
    rw [ih]

theorem mkFoundationModules_getElem (j i : Nat) (l : List GapDetail) :
    (mkFoundationModules j l)[i]? = Option.map (fun g => foundation_module (j + i) g) l[i]? := by
  induction l generalizing i j with
  | nil => simp [mkFoundationModules]
  | cons g gs ih =>
    cases i with
    | zero => simp [mkFoundationModules]
    | succ i =>
      simp only [mkFoundationModules, List.getElem?_cons_succ]
      rw [show j + (i + 1) = j + 1 + i by omega]
      exact ih (j + 1) i

theorem mkFoundationModules_length (j : Nat) (l : List GapDetail) :
    (mkFoundationModules j l).length = l.length := by
  induction l generalizing j with
  | nil => rfl
  | cons g gs ih =>
    simp only [mkFoundationModules, List.length_cons]
    rw [ih (j + 1)]

/-- Claim C5: the deterministic single-phase assembler returns the one-module
orientation default for an empty gap list, and for a prioritized gap list of
N entries with 1 le N le 5 returns exactly N modules, the i-th templated from
the i-th gap. -/
theorem c5_assembler_module_counts :
    (∀ job_title domain : String,
      generate_training_modules [] [] job_title domain = generate_default_module job_title domain
      ∧ (generate_default_module job_title domain).modules.length = 1)
    ∧ (∀ (gaps : List GapDetail) (job_title domain : String),
      1 ≤ gaps.length → gaps.length ≤ 5 →
      (generate_training_modules gaps (gaps.take 5) job_title domain).modules
        = gaps.enum.map (fun p => template_module p.1 p.2 job_title domain)
      ∧ (generate_training_modules gaps (gaps.take 5) job_title domain).modules.length
        = gaps.length) := by
  constructor
  · intro job_title domain
    exact ⟨rfl, rfl⟩
  · intro gaps job_title domain h1 h5
    have hne : gaps.isEmpty = false := by
      cases gaps with
      | nil => simp at h1
      | cons g gs => rfl
    have hmods : (generate_training_modules gaps (gaps.take 5) job_title domain).modules
        = gaps.enum.map (fun p => template_module p.1 p.2 job_title domain) := by
      have hstep : (generate_training_modules gaps (gaps.take 5) job_title domain).modules
          = mkModules job_title domain 0 ((gaps.take 5).take 5) := by
        simp only [generate_training_modules, hne, Bool.false_eq_true, if_false]
        rfl
      rw [hstep, List.take_take, Nat.min_self, List.take_of_length_le h5,
        mkModules_eq_enumFrom]
      rfl
    exact ⟨hmods, by rw [hmods, List.length_map, List.enum_length]⟩

/-- Claim C5, witness: a concrete two-gap list yielding exactly the two
templated modules. -/
theorem c5_witness :
    1 ≤ ([⟨"sql", "important", 1, "Required for ML Intern position", []⟩,
          ⟨"pandas", "nice-to-have", 2, "Required for ML Intern position", []⟩]
            : List GapDetail).length
    ∧ ([⟨"sql", "important", 1, "Required for ML Intern position", []⟩,
          ⟨"pandas", "nice-to-have", 2, "Required for ML Intern position", []⟩]
            : List GapDetail).length ≤ 5
    ∧ (generate_training_modules
          [⟨"sql", "important", 1, "Required for ML Intern position", []⟩,
            ⟨"pandas", "nice-to-have", 2, "Required for ML Intern position", []⟩]
          (([⟨"sql", "important", 1, "Required for ML Intern position", []⟩,
            ⟨"pandas", "nice-to-have", 2, "Required for ML Intern position", []⟩]
              : List GapDetail).take 5)
          "ML Intern" "biotech").modules
        = ([⟨"sql", "important", 1, "Required for ML Intern position", []⟩,
            ⟨"pandas", "nice-to-have", 2, "Required for ML Intern position", []⟩]
              : List GapDetail).enum.map
            (fun p => template_module p.1 p.2 "ML Intern" "biotech") :=
  ⟨by decide, by decide,
    (c5_assembler_module_counts.2
      [⟨"sql", "important", 1, "Required for ML Intern position", []⟩,
        ⟨"pandas", "nice-to-have", 2, "Required for ML Intern position", []⟩]
      "ML Intern" "biotech" (by decide) (by decide)).1⟩

/-- Claim C6, counterexample: on the empty-gap orientation path the code sets
estimated_duration to "1 week" for a 1-module curriculum, not the claimed
module_count times 2 weeks (which would be "2 weeks"). -/
theorem c6_counterexample :
    ¬ ((generate_training_modules [] [] "ML Intern" "biotech").estimated_duration
        = toString ((generate_training_modules [] [] "ML Intern" "biotech").modules.length * 2)
            ++ " weeks") := by
  decide

/-- Claim C6, amended: on the template path (non-empty gap list) the overall
duration is module_count times 2 weeks, and the scenario with 5 prioritized
gaps yields 5 modules and "10 weeks"; the empty-gap orientation curriculum
instead carries the fixed duration "1 week". -/
theorem c6_duration_heuristic :
    (∀ (gaps priority_gaps : List GapDetail) (job_title domain : String), gaps ≠ [] →
      (generate_training_modules gaps priority_gaps job_title domain).estimated_duration
        = toString
            ((generate_training_modules gaps priority_gaps job_title domain).modules.length * 2)
            ++ " weeks")
    ∧ (∀ job_title domain : String,
      (generate_training_modules [] [] job_title domain).estimated_duration = "1 week")
    ∧ ((generate_training_modules
          [⟨"a", "important", 1, "r", []⟩, ⟨"b", "important", 2, "r", []⟩,
            ⟨"c", "important", 3, "r", []⟩, ⟨"d", "important", 4, "r", []⟩,
            ⟨"e", "important", 5, "r", []⟩]
          [⟨"a", "important", 1, "r", []⟩, ⟨"b", "important", 2, "r", []⟩,
            ⟨"c", "important", 3, "r", []⟩, ⟨"d", "important", 4, "r", []⟩,
            ⟨"e", "important", 5, "r", []⟩]
          "ML Intern" "biotech").modules.length = 5
      ∧ (generate_training_modules
          [⟨"a", "important", 1, "r", []⟩, ⟨"b", "important", 2, "r", []⟩,
            ⟨"c", "important", 3, "r", []⟩, ⟨"d", "important", 4, "r", []⟩,
            ⟨"e", "important", 5, "r", []⟩]
          [⟨"a", "important", 1, "r", []⟩, ⟨"b", "important", 2, "r", []⟩,
            ⟨"c", "important", 3, "r", []⟩, ⟨"d", "important", 4, "r", []⟩,
            ⟨"e", "important", 5, "r", []⟩]
          "ML Intern" "biotech").estimated_duration = "10 weeks") := by
  refine ⟨?_, fun _ _ => rfl, by decide, by decide⟩
  intro gaps priority_gaps job_title domain h
  have hne : gaps.isEmpty = false := by
    cases gaps with
    | nil => exact absurd rfl h
    | cons g gs => rfl
  simp only [generate_training_modules, hne, Bool.false_eq_true, if_false]
  rfl

/-- Claim C6, witness: the template branch applied at a concrete one-gap
input. -/
theorem c6_witness :
    ([⟨"sql", "important", 1, "r", []⟩] : List GapDetail) ≠ []
    ∧ (generate_training_modules [⟨"sql", "important", 1, "r", []⟩]
          [⟨"sql", "important", 1, "r", []⟩] "ML Intern" "biotech").estimated_duration
        = toString ((generate_training_modules [⟨"sql", "important", 1, "r", []⟩]
            [⟨"sql", "important", 1, "r", []⟩] "ML Intern" "biotech").modules.length * 2)
            ++ " weeks" :=
  ⟨by decide,
    c6_duration_heuristic.1 [⟨"sql", "important", 1, "r", []⟩]
      [⟨"sql", "important", 1, "r", []⟩] "ML Intern" "biotech" (by decide)⟩

/-- Claim C7: the two-phase template returns foundation modules (one per gap,
at most 3) followed by the project modules (one per tech-stack entry, at most
3, then exactly one trailing project-context module, also when the tech stack
is empty), with exactly 3 milestones; the documented scenario with 2 gaps and
2 tech-stack entries yields 5 modules. -/
theorem c7_two_phase_structure :
    (∀ (priority_gaps : List GapDetail) (info : ProjectInfo) (existing_skills : List String),
      (generate_project_training_template priority_gaps info existing_skills).modules
        = (priority_gaps.take 3).enum.map (fun p => foundation_module p.1 p.2)
          ++ (((info.tech_stack.getD []).take 3).map
                (fun t => tech_module t (info.name.getD "Project"))
            ++ [context_module (info.name.getD "Project")])
      ∧ (generate_project_training_template priority_gaps info existing_skills).modules.getLast?
          = some (context_module (info.name.getD "Project"))
      ∧ Option.map List.length
          (generate_project_training_template priority_gaps info existing_skills).milestones
          = some 3)
    ∧ ((generate_project_training_template
          [⟨"sql", "important", 1, "r", []⟩, ⟨"pandas", "nice-to-have", 2, "r", []⟩]
          ⟨some "Proj", none, some ["React", "Postgres"], some "Dev", some "Org", none, none⟩
          []).modules.length = 5
      ∧ Option.map List.length
          (generate_project_training_template
            [⟨"sql", "important", 1, "r", []⟩, ⟨"pandas", "nice-to-have", 2, "r", []⟩]
            ⟨some "Proj", none, some ["React", "Postgres"], some "Dev", some "Org", none, none⟩
            []).milestones = some 3) := by
  refine ⟨?_, by decide, by decide⟩
  intro priority_gaps info existing_skills
  have hm : (generate_project_training_template priority_gaps info existing_skills).modules
      = mkFoundationModules 0 (priority_gaps.take 3)
        ++ (((info.tech_stack.getD []).take 3).map
              (fun t => tech_module t (info.name.getD "Project"))
          ++ [context_module (info.name.getD "Project")]) := rfl
  refine ⟨?_, ?_, rfl⟩
  · rw [hm, mkFoundationModules_eq_enumFrom]
    rfl
  · rw [hm, ← List.append_assoc, List.getLast?_concat]

/-- Claim C8, counterexample: for the gap (sql, important) the two-phase
foundation module and the single-phase module disagree: the foundation module
has duration "1 week" (not the claimed fixed literal "1-2 weeks") and
difficulty "intermediate" although the importance is not critical (the
single-phase rule gives "beginner"); the foundation module really is the one
the two-phase template places first. -/
theorem c8_counterexample :
    (generate_project_training_template [⟨"sql", "important", 1, "r", []⟩]
        ⟨some "Proj", none, some ["React"], some "Dev", some "Org", none, none⟩
        []).modules[0]?
      = some (foundation_module 0 ⟨"sql", "important", 1, "r", []⟩)
    ∧ (foundation_module 0 ⟨"sql", "important", 1, "r", []⟩).estimated_duration = "1 week"
    ∧ (template_module 0 ⟨"sql", "important", 1, "r", []⟩ "ML Intern" "biotech").estimated_duration
        = "1-2 weeks"
    ∧ (foundation_module 0 ⟨"sql", "important", 1, "r", []⟩).difficulty = "intermediate"
    ∧ (template_module 0 ⟨"sql", "important", 1, "r", []⟩ "ML Intern" "biotech").difficulty
        = "beginner"
    ∧ (⟨"sql", "important", 1, "r", []⟩ : GapDetail).importance ≠ "critical"
    ∧ foundation_module 0 ⟨"sql", "important", 1, "r", []⟩
        ≠ template_module 0 ⟨"sql", "important", 1, "r", []⟩ "ML Intern" "biotech" := by
  decide

/-- Claim C8, amended: foundation-phase modules follow their own fixed
template, not the single-phase one: the i-th module of the two-phase result
is foundation_module applied to the i-th prioritized gap (for i below the
3-gap cap), and that module always has difficulty "intermediate" and
estimated_duration "1 week" regardless of the importance of the gap. -/
theorem c8_foundation_template (priority_gaps : List GapDetail) (info : ProjectInfo)
    (existing_skills : List String) (i : Nat) (g : GapDetail)
    (h : (priority_gaps.take 3)[i]? = some g) :
    (generate_project_training_template priority_gaps info existing_skills).modules[i]?
      = some (foundation_module i g)
    ∧ (foundation_module i g).difficulty = "intermediate"
    ∧ (foundation_module i g).estimated_duration = "1 week" := by
  refine ⟨?_, rfl, rfl⟩
  have hlen : i < (priority_gaps.take 3).length := by
    have := List.getElem?_eq_some.mp h
    exact this.1
  have hflen : i < (mkFoundationModules 0 (priority_gaps.take 3)).length := by
    rw [mkFoundationModules_length]
    exact hlen
  have hm : (generate_project_training_template priority_gaps info existing_skills).modules
      = mkFoundationModules 0 (priority_gaps.take 3)
        ++ (((info.tech_stack.getD []).take 3).map
              (fun t => tech_module t (info.name.getD "Project"))
          ++ [context_module (info.name.getD "Project")]) := rfl
  rw [hm, List.getElem?_append, if_pos hflen, mkFoundationModules_getElem, h]
  simp

/-- Claim C8, witness for the amended claim: the first gap of a concrete
two-phase call produces exactly its foundation module. -/
theorem c8_witness :
    (([⟨"sql", "important", 1, "r", []⟩] : List GapDetail).take 3)[0]?
      = some (⟨"sql", "important", 1, "r", []⟩ : GapDetail)
    ∧ (generate_project_training_template [⟨"sql", "important", 1, "r", []⟩]
          ⟨none, none, none, none, none, none, none⟩ []).modules[0]?
        = some (foundation_module 0 ⟨"sql", "important", 1, "r", []⟩) :=
  ⟨by decide,
    (c8_foundation_template [⟨"sql", "important", 1, "r", []⟩]
      ⟨none, none, none, none, none, none, none⟩ [] 0
      ⟨"sql", "important", 1, "r", []⟩ (by decide)).1⟩

/-- Claim C3: the enrichment merger never decreases the resource or
case-study counts, and on any failure of either collaborator call (which in
the source precedes every mutation of the curriculum) it returns the input
curriculum unchanged; totality of the embedding reflects that the except
handler keeps every collaborator exception away from the caller. -/
theorem c3_enrichment_safe (td : TrainingData) (skill_gaps : List String) (domain : String)
    (get_papers_for_skills : List String → String → Nat → Except Unit (List (String × List Paper)))
    (get_case_studies : String → String → Nat → Except Unit (List Paper)) :
    td.resources.length
        ≤ (enrich_with_research_papers td skill_gaps domain get_papers_for_skills
            get_case_studies).resources.length
    ∧ td.case_studies.length
        ≤ (enrich_with_research_papers td skill_gaps domain get_papers_for_skills
            get_case_studies).case_studies.length
    ∧ (∀ e, get_papers_for_skills (skill_gaps.take 5) domain 3 = .error e →
        enrich_with_research_papers td skill_gaps domain get_papers_for_skills get_case_studies
          = td)
    ∧ (∀ ps e, get_papers_for_skills (skill_gaps.take 5) domain 3 = .ok ps →
        get_case_studies (skill_gaps.headD domain) domain 3 = .error e →
        enrich_with_research_papers td skill_gaps domain get_papers_for_skills get_case_studies
          = td) := by
  cases hp : get_papers_for_skills (skill_gaps.take 5) domain 3 with
  | error e =>
    have hr : enrich_with_research_papers td skill_gaps domain get_papers_for_skills
        get_case_studies = td := by
      unfold enrich_with_research_papers
      rw [hp]
    rw [hr]
    refine ⟨Nat.le_refl _, Nat.le_refl _, fun _ _ => rfl, fun _ _ _ _ => rfl⟩
  | ok ps =>
    cases hc : get_case_studies (skill_gaps.headD domain) domain 3 with
    | error e =>
      have hr : enrich_with_research_papers td skill_gaps domain get_papers_for_skills
          get_case_studies = td := by
        unfold enrich_with_research_papers
        rw [hp, hc]
      rw [hr]
      refine ⟨Nat.le_refl _, Nat.le_refl _, fun _ _ => rfl, fun _ _ _ _ => rfl⟩
    | ok cs =>
      have hr : enrich_with_research_papers td skill_gaps domain get_papers_for_skills
          get_case_studies
          = { td with
              resources := td.resources
                ++ (ps.map (fun sp => sp.2.map (research_resource sp.1))).flatten
              case_studies := td.case_studies ++ cs.map research_case_study
              research_papers_count :=
                some ((ps.map (fun sp => sp.2.map (research_resource sp.1))).flatten).length } := by
        unfold enrich_with_research_papers
        rw [hp, hc]
      rw [hr]
      refine ⟨?_, ?_, ?_, ?_⟩
      · rw [List.length_append]
        exact Nat.le_add_right _ _
      · rw [List.length_append]
        exact Nat.le_add_right _ _
      · intro e h1
        simp at h1
      · intro ps' e h1 h2
        simp at h2

/-- Claim C3, witness: a failing paper-search collaborator leaves a concrete
curriculum unchanged. -/
theorem c3_witness :
    enrich_with_research_papers (generate_default_module "ML Intern" "biotech")
      ["sql"] "biotech" (fun _ _ _ => .error ()) (fun _ _ _ => .ok [])
      = generate_default_module "ML Intern" "biotech" :=
  (c3_enrichment_safe (generate_default_module "ML Intern" "biotech") ["sql"] "biotech"
    (fun _ _ _ => .error ()) (fun _ _ _ => .ok [])).2.2.1 () rfl
